import Mathlib

/-!
Verification of the fog_client agent against its specification.

This file gives a shallow embedding of the parts of the agent that the
checked claims are about:

* the resource ledger of `src/client/simulator.py` and
  `src/client/resources/simulator.py` (`get_resources`, `check_resources`,
  `reserve_resources`, `free_resources`);
* the protocol responder branches of
  `src/client/protocol/protocol_bcst.py` and
  `src/client/protocol/protocol_orch.py` (`MyProtocol.answers`,
  `MyProtocol.hashret`, `MyProtocolAM.is_request`, and the per-state
  branches of `MyProtocolAM.make_reply`);
* the orchestrator REST facade of `src/client/api.py` (`_ryu_request` and
  the operations built on it).

Numeric fields that the source handles as Python floats (CPU/RAM/disk
quantities, timestamps) are embedded as rationals: the specification
states that resource comparisons are direct inequalities with values far
from rounding boundaries.  Python dict state (`_reserved`) is passed
explicitly; every embedded operation takes the state it reads and returns
the state it leaves behind.
-/

namespace Fog

/-! ### Constants from `src/client/consts.py` -/

def FAIL : ℕ := 0

def HREQ : ℕ := 1

def HRES : ℕ := 2

def RREQ : ℕ := 3

def RRES : ℕ := 4

def RACK : ℕ := 5

def RCAN : ℕ := 6

def DREQ : ℕ := 7

def DRES : ℕ := 8

def DACK : ℕ := 9

def DCAN : ℕ := 10

def DWAIT : ℕ := 11

def REQ_ID_LEN : ℕ := 10

def MAC_LEN : ℕ := 17

def IP_LEN : ℕ := 15

def DEFAULT_IP : String := "0.0.0.0"

def HTTP_SUCCESS : ℕ := 200

def HTTP_EXISTS : ℕ := 303

/-! ### The resource ledger

From `src/client/resources/simulator.py` (the `src/client/simulator.py`
copy is identical on these operations, in resource mode).  The module
constants `CPU`, `RAM`, `DISK` hold the declared capacities when
`SIMULATOR_ACTIVE` is true and the measured totals otherwise;
`MEASURES['cpu_free']` etc. are the measured free amounts used when the
simulator is off.  `RESOURCE_LIMIT` is validated in `src/client/common.py`:
a value outside [0, 100] falls back to 0, then `LIMIT = limit / 100` and
`THRESHOLD = 1 - LIMIT`.
-/

/-- The configuration a resource node's ledger runs under (module-level
constants of the simulator module, resource mode). -/
structure Config where
  simOn : Bool
  totalCpu : ℚ
  totalRam : ℚ
  totalDisk : ℚ
  freeCpu : ℚ
  freeRam : ℚ
  freeDisk : ℚ
  limitArg : ℚ
deriving DecidableEq

/-- Validation of `RESOURCE_LIMIT` from `src/client/common.py`: out of
[0, 100] falls back to 0. -/
def limitOf (raw : ℚ) : ℚ := if raw < 0 ∨ raw > 100 then 0 else raw

/-- `LIMIT = _limit / 100` (`src/client/common.py`). -/
def LIMIT (c : Config) : ℚ := limitOf c.limitArg / 100

/-- `THRESHOLD = 1 - _limit` (`src/client/common.py`). -/
def THRESHOLD (c : Config) : ℚ := 1 - LIMIT c

/-- `CPU_THRESHOLD = CPU * THRESHOLD` (`src/client/resources/simulator.py`). -/
def cpuThreshold (c : Config) : ℚ := c.totalCpu * THRESHOLD c

/-- `RAM_THRESHOLD = RAM * THRESHOLD`. -/
def ramThreshold (c : Config) : ℚ := c.totalRam * THRESHOLD c

/-- `DISK_THRESHOLD = DISK * THRESHOLD`. -/
def diskThreshold (c : Config) : ℚ := c.totalDisk * THRESHOLD c

/-- The `_reserved` dict of the simulator module. -/
structure Reserved where
  cpu : ℚ
  ram : ℚ
  disk : ℚ
deriving DecidableEq

def Reserved.zero : Reserved := ⟨0, 0, 0⟩

/-- The CoS minima a `Request` exposes through `get_min_cpu`,
`get_min_ram`, `get_min_disk` (`src/client/model.py`). -/
structure Req where
  minCpu : ℚ
  minRam : ℚ
  minDisk : ℚ
deriving DecidableEq

/-- `get_resources` (`src/client/resources/simulator.py`, lines 154-203),
resource mode: declared capacity minus reserved when the simulator is on,
measured free minus reserved otherwise. -/
def get_resources (c : Config) (r : Reserved) : ℚ × ℚ × ℚ :=
  if c.simOn then
    (c.totalCpu - r.cpu, c.totalRam - r.ram, c.totalDisk - r.disk)
  else
    (c.freeCpu - r.cpu, c.freeRam - r.ram, c.freeDisk - r.disk)

/-- The admission test shared by `check_resources` and
`reserve_resources`: each free dimension minus the requirement stays at or
above the per-dimension threshold. -/
def checkCond (c : Config) (r : Reserved) (q : Req) : Bool :=
  let res := get_resources c r
  decide (res.1 - q.minCpu ≥ cpuThreshold c) &&
  decide (res.2.1 - q.minRam ≥ ramThreshold c) &&
  decide (res.2.2 - q.minDisk ≥ diskThreshold c)

/-- `check_resources` (`src/client/resources/simulator.py`, lines 206-222):
evaluates the admission test under `_reserved_lock` and returns the
verdict; `_reserved` is only read, so the state is returned unchanged. -/
def check_resources (c : Config) (r : Reserved) (q : Req) : Bool × Reserved :=
  (checkCond c r q, r)

/-- `reserve_resources` (`src/client/resources/simulator.py`, lines
225-249): re-evaluates the admission test under `_reserved_lock`; on
success adds the request's minima to every reserved dimension and returns
`True`, otherwise returns `False` leaving `_reserved` untouched. -/
def reserve_resources (c : Config) (r : Reserved) (q : Req) : Bool × Reserved :=
  if checkCond c r q then
    (true, ⟨r.cpu + q.minCpu, r.ram + q.minRam, r.disk + q.minDisk⟩)
  else
    (false, r)

/-- The per-dimension clamp of `free_resources`: `_reserved[k] -= v` then
`if _reserved[k] < 0: _reserved[k] = 0`. -/
def clamp0 (x : ℚ) : ℚ := if x < 0 then 0 else x

/-- `free_resources` (`src/client/resources/simulator.py`, lines 252-271):
subtracts the request's minima from every reserved dimension, clamping
each dimension at zero independently, and always returns `True`.  The
ledger state is only the `_reserved` triple: there is no per-request
record in this module. -/
def free_resources (_c : Config) (r : Reserved) (q : Req) : Bool × Reserved :=
  (true,
    ⟨clamp0 (r.cpu - q.minCpu), clamp0 (r.ram - q.minRam),
      clamp0 (r.disk - q.minDisk)⟩)

/-! ### Claims C1, C2, C10 -/

/-- C1: `check_resources(req)` returns true iff, for each of the three
dimensions, the free amount (declared capacity in simulation, or measured
free, minus the currently reserved amount) minus the requirement is at
least `total * threshold` with `threshold = 1 - RESOURCE_LIMIT/100`, and
it leaves the reserved triple unchanged.  The hypotheses keep
`RESOURCE_LIMIT` inside the validated range [0, 100], where the code's
clamped threshold agrees with the claim's formula. -/
theorem check_resources_iff_threshold (c : Config) (r : Reserved) (q : Req)
    (h0 : 0 ≤ c.limitArg) (h100 : c.limitArg ≤ 100) :
    ((check_resources c r q).1 = true ↔
      ((if c.simOn then c.totalCpu else c.freeCpu) - r.cpu - q.minCpu ≥
          c.totalCpu * (1 - c.limitArg / 100) ∧
        (if c.simOn then c.totalRam else c.freeRam) - r.ram - q.minRam ≥
          c.totalRam * (1 - c.limitArg / 100) ∧
        (if c.simOn then c.totalDisk else c.freeDisk) - r.disk - q.minDisk ≥
          c.totalDisk * (1 - c.limitArg / 100))) ∧
    (check_resources c r q).2 = r := by
  have hl : limitOf c.limitArg = c.limitArg := by
    unfold limitOf
    rw [if_neg]
    push_neg
    exact ⟨h0, h100⟩
  refine ⟨?_, rfl⟩
  simp only [check_resources, checkCond, get_resources, cpuThreshold,
    ramThreshold, diskThreshold, THRESHOLD, LIMIT, hl, Bool.and_eq_true,
    decide_eq_true_eq]
  cases hs : c.simOn <;> simp [hs] <;> tauto

/-- Witness for C1 at a concrete input: simulation mode, capacities
(4, 2048, 20), limit 80%, reserved (1, 512, 5), request minima
(1, 256, 2). -/
theorem check_resources_iff_threshold_witness :
    (0 : ℚ) ≤ 80 ∧ (80 : ℚ) ≤ 100 ∧
    (((check_resources ⟨true, 4, 2048, 20, 0, 0, 0, 80⟩ ⟨1, 512, 5⟩
        ⟨1, 256, 2⟩).1 = true ↔
      ((if (true : Bool) then (4 : ℚ) else 0) - 1 - 1 ≥
          4 * (1 - 80 / 100) ∧
        (if (true : Bool) then (2048 : ℚ) else 0) - 512 - 256 ≥
          2048 * (1 - 80 / 100) ∧
        (if (true : Bool) then (20 : ℚ) else 0) - 5 - 2 ≥
          20 * (1 - 80 / 100))) ∧
    (check_resources ⟨true, 4, 2048, 20, 0, 0, 0, 80⟩ ⟨1, 512, 5⟩
        ⟨1, 256, 2⟩).2 = ⟨1, 512, 5⟩) :=
  ⟨by norm_num, by norm_num,
    check_resources_iff_threshold ⟨true, 4, 2048, 20, 0, 0, 0, 80⟩
      ⟨1, 512, 5⟩ ⟨1, 256, 2⟩ (by norm_num) (by norm_num)⟩

/-- C2: `reserve_resources(req)` re-evaluates the same admission test as
`check_resources`; when it holds it adds exactly the request's minima to
each reserved dimension and returns true, otherwise it returns false and
leaves all three reserved amounts unchanged — never a partial
reservation. -/
theorem reserve_reevaluates_check (c : Config) (r : Reserved) (q : Req) :
    reserve_resources c r q =
      ((check_resources c r q).1,
        if (check_resources c r q).1 then
          ⟨r.cpu + q.minCpu, r.ram + q.minRam, r.disk + q.minDisk⟩
        else r) := by
  simp only [reserve_resources, check_resources]
  by_cases h : checkCond c r q = true
  · simp [h]
  · simp [Bool.not_eq_true] at h
    simp [h]

lemma clamp0_eq_max (x : ℚ) : clamp0 x = max 0 x := by
  unfold clamp0
  split
  · exact (max_eq_left (le_of_lt (by assumption))).symm
  · exact (max_eq_right (le_of_not_lt (by assumption))).symm

/-- C10: `free_resources(req)` succeeds for every request and every ledger
state: it returns `True` unconditionally and replaces each reserved
dimension independently by `max 0 (reserved - min)`, even when nothing was
ever reserved for the request.  The ledger state is only the triple, so
double-free protection can only live in the caller's per-request `_freed`
flag. -/
theorem free_resources_total (c : Config) (r : Reserved) (q : Req) :
    free_resources c r q =
      (true,
        ⟨max 0 (r.cpu - q.minCpu), max 0 (r.ram - q.minRam),
          max 0 (r.disk - q.minDisk)⟩) := by
  simp [free_resources, clamp0_eq_max]

/-! ### Claim C3: ledger invariant under sequences of reserve/free -/

/-- A call into the ledger: `reserve_resources(req)` or
`free_resources(req)`, identified by the request's minima. -/
inductive LedgerOp
  | reserveOp (q : Req)
  | freeOp (q : Req)
deriving DecidableEq

/-- The request a ledger call carries. -/
def LedgerOp.req : LedgerOp → Req
  | .reserveOp q => q
  | .freeOp q => q

/-- The state left in `_reserved` by one ledger call. -/
def stepOp (c : Config) (r : Reserved) : LedgerOp → Reserved
  | .reserveOp q => (reserve_resources c r q).2
  | .freeOp q => (free_resources c r q).2

/-- The state of `_reserved` after a finite call sequence, starting from
the module's initial all-zero dict. -/
def runOps (c : Config) (ops : List LedgerOp) : Reserved :=
  ops.foldl (stepOp c) Reserved.zero

/-- Nonnegative CoS minima (CoS requirement vectors are quantities of
CPU/RAM/disk). -/
def Req.nonneg (q : Req) : Prop := 0 ≤ q.minCpu ∧ 0 ≤ q.minRam ∧ 0 ≤ q.minDisk

/-- The invariant: every reserved dimension is nonnegative and, in
simulation mode, stays within `total * LIMIT`. -/
def LedgerInv (c : Config) (r : Reserved) : Prop :=
  (0 ≤ r.cpu ∧ 0 ≤ r.ram ∧ 0 ≤ r.disk) ∧
  (c.simOn = true →
    r.cpu ≤ c.totalCpu * LIMIT c ∧ r.ram ≤ c.totalRam * LIMIT c ∧
      r.disk ≤ c.totalDisk * LIMIT c)

lemma clamp0_nonneg (x : ℚ) : 0 ≤ clamp0 x := by
  unfold clamp0
  split
  · exact le_refl 0
  · exact le_of_not_lt (by assumption)

lemma clamp0_le_of_nonneg {x y : ℚ} (hx : 0 ≤ x) (hy : 0 ≤ y) :
    clamp0 (x - y) ≤ x := by
  unfold clamp0
  split
  · exact hx
  · linarith

lemma checkCond_iff (c : Config) (r : Reserved) (q : Req) :
    checkCond c r q = true ↔
      ((get_resources c r).1 - q.minCpu ≥ cpuThreshold c ∧
        (get_resources c r).2.1 - q.minRam ≥ ramThreshold c ∧
        (get_resources c r).2.2 - q.minDisk ≥ diskThreshold c) := by
  simp [checkCond, and_assoc]

lemma get_resources_sim (c : Config) (r : Reserved) (hs : c.simOn = true) :
    get_resources c r =
      (c.totalCpu - r.cpu, c.totalRam - r.ram, c.totalDisk - r.disk) := by
  simp [get_resources, hs]

lemma stepOp_inv (c : Config) (r : Reserved) (op : LedgerOp)
    (hq : op.req.nonneg) (h : LedgerInv c r) : LedgerInv c (stepOp c r op) := by
  obtain ⟨⟨h1, h2, h3⟩, hcap⟩ := h
  cases op with
  | freeOp q =>
    obtain ⟨hqc, hqr, hqd⟩ := hq
    refine ⟨⟨clamp0_nonneg _, clamp0_nonneg _, clamp0_nonneg _⟩, fun hs => ?_⟩
    obtain ⟨hc1, hc2, hc3⟩ := hcap hs
    exact ⟨le_trans (clamp0_le_of_nonneg h1 hqc) hc1,
      le_trans (clamp0_le_of_nonneg h2 hqr) hc2,
      le_trans (clamp0_le_of_nonneg h3 hqd) hc3⟩
  | reserveOp q =>
    obtain ⟨hqc, hqr, hqd⟩ := hq
    simp only [LedgerOp.req] at hqc hqr hqd
    by_cases hck : checkCond c r q = true
    · have hstep : stepOp c r (.reserveOp q) =
          ⟨r.cpu + q.minCpu, r.ram + q.minRam, r.disk + q.minDisk⟩ := by
        simp [stepOp, reserve_resources, hck]
      rw [hstep]
      refine ⟨⟨by dsimp only; linarith, by dsimp only; linarith,
        by dsimp only; linarith⟩, fun hs => ?_⟩
      have hcond := (checkCond_iff c r q).mp hck
      rw [get_resources_sim c r hs] at hcond
      simp only [cpuThreshold, ramThreshold, diskThreshold, THRESHOLD]
        at hcond
      obtain ⟨hc1, hc2, hc3⟩ := hcond
      refine ⟨?_, ?_, ?_⟩ <;> dsimp only <;> nlinarith
    · have hstep : stepOp c r (.reserveOp q) = r := by
        simp only [Bool.not_eq_true] at hck
        simp [stepOp, reserve_resources, hck]
      rw [hstep]
      exact ⟨⟨h1, h2, h3⟩, hcap⟩

lemma runOps_inv_aux (c : Config) (ops : List LedgerOp)
    (hops : ∀ op ∈ ops, op.req.nonneg) (r : Reserved) (h : LedgerInv c r) :
    LedgerInv c (ops.foldl (stepOp c) r) := by
  induction ops generalizing r with
  | nil => exact h
  | cons op rest ih =>
    exact ih (fun o ho => hops o (List.mem_cons_of_mem _ ho)) _
      (stepOp_inv c r op (hops op (List.mem_cons_self _ _)) h)

/-- C3: starting from the all-zero reserved triple, after every finite
sequence of `reserve_resources` and `free_resources` calls with
nonnegative CoS minima, each reserved dimension is nonnegative, and in
simulation mode (declared totals) each committed reservation stays within
`total * (RESOURCE_LIMIT/100)`, which is `total * (1 - threshold)` for the
specification's `threshold = 1 - RESOURCE_LIMIT/100`. -/
theorem ledger_invariant_nonneg_cap (c : Config) (ops : List LedgerOp)
    (hcpu : 0 ≤ c.totalCpu) (hram : 0 ≤ c.totalRam) (hdisk : 0 ≤ c.totalDisk)
    (h0 : 0 ≤ c.limitArg) (h100 : c.limitArg ≤ 100)
    (hops : ∀ op ∈ ops, op.req.nonneg) :
    (0 ≤ (runOps c ops).cpu ∧ 0 ≤ (runOps c ops).ram ∧
      0 ≤ (runOps c ops).disk) ∧
    (c.simOn = true →
      (runOps c ops).cpu ≤ c.totalCpu * (c.limitArg / 100) ∧
      (runOps c ops).ram ≤ c.totalRam * (c.limitArg / 100) ∧
      (runOps c ops).disk ≤ c.totalDisk * (c.limitArg / 100)) := by
  have hl : limitOf c.limitArg = c.limitArg := by
    unfold limitOf
    rw [if_neg]
    push_neg
    exact ⟨h0, h100⟩
  have hlim : LIMIT c = c.limitArg / 100 := by
    unfold LIMIT
    rw [hl]
  have hinv : LedgerInv c (runOps c ops) := by
    refine runOps_inv_aux c ops hops Reserved.zero ?_
    refine ⟨⟨le_refl 0, le_refl 0, le_refl 0⟩, fun _ => ?_⟩
    rw [hlim]
    have hq : (0 : ℚ) ≤ c.limitArg / 100 := div_nonneg h0 (by norm_num)
    exact ⟨mul_nonneg hcpu hq, mul_nonneg hram hq, mul_nonneg hdisk hq⟩
  obtain ⟨hn, hc⟩ := hinv
  rw [hlim] at hc
  exact ⟨hn, hc⟩

/-- Concrete ledger configuration for the C3 witness: simulation mode,
capacities (4, 2048, 20), `RESOURCE_LIMIT = 50`. -/
def cW : Config := ⟨true, 4, 2048, 20, 0, 0, 0, 50⟩

/-- Concrete call sequence for the C3 witness. -/
def opsW : List LedgerOp :=
  [LedgerOp.reserveOp ⟨1, 512, 5⟩, LedgerOp.freeOp ⟨1, 512, 5⟩,
    LedgerOp.reserveOp ⟨2, 1024, 10⟩]

/-- Witness for C3 at the concrete configuration `cW` and call sequence
`opsW`. -/
theorem ledger_invariant_nonneg_cap_witness :
    ((0 : ℚ) ≤ cW.totalCpu ∧ (0 : ℚ) ≤ cW.totalRam ∧
      (0 : ℚ) ≤ cW.totalDisk ∧ (0 : ℚ) ≤ cW.limitArg ∧
      cW.limitArg ≤ 100 ∧ ∀ op ∈ opsW, op.req.nonneg) ∧
    ((0 ≤ (runOps cW opsW).cpu ∧ 0 ≤ (runOps cW opsW).ram ∧
        0 ≤ (runOps cW opsW).disk) ∧
      (cW.simOn = true →
        (runOps cW opsW).cpu ≤ cW.totalCpu * (cW.limitArg / 100) ∧
        (runOps cW opsW).ram ≤ cW.totalRam * (cW.limitArg / 100) ∧
        (runOps cW opsW).disk ≤ cW.totalDisk * (cW.limitArg / 100))) := by
  have hops : ∀ op ∈ opsW, op.req.nonneg := by
    intro op hop
    simp only [opsW] at hop
    fin_cases hop <;>
      exact ⟨by norm_num [LedgerOp.req], by norm_num [LedgerOp.req],
        by norm_num [LedgerOp.req]⟩
  refine ⟨⟨by norm_num [cW], by norm_num [cW], by norm_num [cW],
    by norm_num [cW], by norm_num [cW], hops⟩, ?_⟩
  exact ledger_invariant_nonneg_cap cW opsW (by norm_num [cW])
    (by norm_num [cW]) (by norm_num [cW]) (by norm_num [cW])
    (by norm_num [cW]) hops

/-! ### Claim C9: the orchestrator REST facade (`src/client/api.py`)

`_ryu_request` wraps a whole HTTP round trip in one try/except.  The
outcome of the underlying call is either a response (status code and
text) or a raised exception, identified by its class name. -/

/-- Outcome of the underlying `requests` library call. -/
inductive HttpOutcome
  | resp (code : ℕ) (text : String)
  | exn (kind : String)
deriving DecidableEq

/-- The first component of `_ryu_request`'s return value: `None`, a
boolean, or (for a successful GET) the parsed JSON body. -/
inductive ApiVal
  | nil
  | boolV (b : Bool)
  | jsonV (body : String)
deriving DecidableEq

/-- `_ryu_request` (`src/client/api.py`, lines 128-149).  GET returns the
parsed body on 200 and `None` otherwise; POST/PUT/DELETE return
`code == 200 or code == 303`; any exception raised inside the try block
is caught and reported as `(None, None, exception class name)`.  A method
outside the four dispatches leaves `r` unbound, so reading it raises
`NameError`, also caught.  The source uppercases the method string on
entry (`method = method.upper()`); here `m` is that uppercased method. -/
def ryuRequest (m : String) (o : HttpOutcome) : ApiVal × Option ℕ × String :=
  match o with
  | .exn k => (.nil, none, k)
  | .resp code text =>
    if m = "GET" then
      if code = HTTP_SUCCESS then (.jsonV text, some code, text)
      else (.nil, some code, text)
    else if m = "POST" ∨ m = "PUT" ∨ m = "DELETE" then
      (.boolV (decide (code = HTTP_SUCCESS ∨ code = HTTP_EXISTS)),
        some code, text)
    else
      (.nil, none, "NameError")

/-- `_ryu_add_node`: `_ryu_request('post', '/node', ...)`. -/
def add_node (o : HttpOutcome) : ApiVal × Option ℕ × String :=
  ryuRequest "POST" o

/-- `_ryu_delete_node`: `_ryu_request('delete', '/node/' + id)`. -/
def delete_node (o : HttpOutcome) : ApiVal × Option ℕ × String :=
  ryuRequest "DELETE" o

/-- `_ryu_update_node_specs`: `_ryu_request('put', '/node_specs/' + id, ...)`. -/
def update_node_specs (o : HttpOutcome) : ApiVal × Option ℕ × String :=
  ryuRequest "PUT" o

/-- `_ryu_add_request`: `_ryu_request('post', '/request', ...)`. -/
def add_request (o : HttpOutcome) : ApiVal × Option ℕ × String :=
  ryuRequest "POST" o

/-- C9: for each of `add_node`, `delete_node`, `update_node_specs` and
`add_request`, the returned success boolean is true iff the HTTP status
code is 200 or 303, and any exception in the underlying call yields
`(None, None, exception kind)` instead of propagating. -/
theorem ryu_api_success_iff (code : ℕ) (text k : String) :
    ((add_node (.resp code text)).1 = .boolV true ↔
      (code = 200 ∨ code = 303)) ∧
    ((delete_node (.resp code text)).1 = .boolV true ↔
      (code = 200 ∨ code = 303)) ∧
    ((update_node_specs (.resp code text)).1 = .boolV true ↔
      (code = 200 ∨ code = 303)) ∧
    ((add_request (.resp code text)).1 = .boolV true ↔
      (code = 200 ∨ code = 303)) ∧
    add_node (.exn k) = (.nil, none, k) ∧
    delete_node (.exn k) = (.nil, none, k) ∧
    update_node_specs (.exn k) = (.nil, none, k) ∧
    add_request (.exn k) = (.nil, none, k) := by
  refine ⟨?_, ?_, ?_, ?_, rfl, rfl, rfl, rfl⟩ <;>
    · simp [add_node, delete_node, update_node_specs, add_request,
        ryuRequest, HTTP_SUCCESS, HTTP_EXISTS]

/-! ### Protocol packets and reply matching (claim C6)

`MyProtocol` in `src/client/protocol/protocol_bcst.py` carries
state, req_id, attempt_no, cos_id, data and the three HRES offers;
`MyProtocol` in `src/client/protocol/protocol_orch.py` carries state,
req_id, attempt_no, cos_id, data and the four address strings.  Scapy
pairs a received packet `p` with a sent packet `q` iff
`p.hashret() == q.hashret()` and `p.answers(q)`. -/

/-- A broadcast-mode `MyProtocol` packet. -/
structure PktB where
  state : ℕ
  req_id : String
  attempt_no : ℕ
  cos_id : ℕ
  data : String
  cpu_offer : ℚ
  ram_offer : ℚ
  disk_offer : ℚ
deriving DecidableEq

/-- An orchestrator-mode `MyProtocol` packet. -/
structure PktO where
  state : ℕ
  req_id : String
  attempt_no : ℕ
  cos_id : ℕ
  data : String
  src_mac : String
  src_ip : String
  host_mac : String
  host_ip : String
deriving DecidableEq

/-- `MyProtocol.answers` in BROADCAST mode
(`src/client/protocol/protocol_bcst.py`, lines 115-137); `self` is the
candidate answer, `other` the outstanding packet. -/
def answers_bcst (self other : PktB) : Bool :=
  (other.state == HREQ && self.state == HRES) ||
  (other.state == RREQ && (self.state == RRES || self.state == RCAN)) ||
  (other.state == RRES && (self.state == DREQ || self.state == RCAN)) ||
  (other.state == DREQ &&
    (self.state == DRES || self.state == DWAIT || self.state == DCAN)) ||
  (other.state == DRES && (self.state == DACK || self.state == DCAN))

/-- `MyProtocol.answers` in ORCHESTRATOR mode
(`src/client/protocol/protocol_orch.py`, lines 217-239); the RRES row
expects RACK or RCAN, not DREQ. -/
def answers_orch (self other : PktO) : Bool :=
  (other.state == HREQ && self.state == HRES) ||
  (other.state == RREQ && (self.state == RRES || self.state == RCAN)) ||
  (other.state == RRES && (self.state == RACK || self.state == RCAN)) ||
  (other.state == DREQ &&
    (self.state == DRES || self.state == DWAIT || self.state == DCAN)) ||
  (other.state == DRES && (self.state == DACK || self.state == DCAN))

/-- `MyProtocol.hashret` in BROADCAST mode: just `req_id`. -/
def hashret_bcst (p : PktB) : String := p.req_id

/-- `MyProtocol.hashret` in ORCHESTRATOR mode:
`req_id + str(attempt_no).encode()`. -/
def hashret_orch (p : PktO) : String := p.req_id ++ toString p.attempt_no

/-- Scapy's pairing rule in BROADCAST mode: equal `hashret` and
`answers`. -/
def matched_bcst (p q : PktB) : Bool :=
  (hashret_bcst p == hashret_bcst q) && answers_bcst p q

/-- Scapy's pairing rule in ORCHESTRATOR mode. -/
def matched_orch (p q : PktO) : Bool :=
  (hashret_orch p == hashret_orch q) && answers_orch p q

/-- The allowed-reply table exactly as claim C6 states it, with
`RREQ → {RRES, RCAN}` and `RRES → {DREQ, RACK, RCAN}`. -/
def claimAnswerTable (qs ps : ℕ) : Bool :=
  (qs == HREQ && ps == HRES) ||
  (qs == RREQ && (ps == RRES || ps == RCAN)) ||
  (qs == RRES && (ps == DREQ || ps == RACK || ps == RCAN)) ||
  (qs == DREQ && (ps == DRES || ps == DWAIT || ps == DCAN)) ||
  (qs == DRES && (ps == DACK || ps == DCAN))

/-- C6, counterexample: in orchestrator mode a DREQ with the same req_id
and attempt number is, per the claim's table, an answer to an outstanding
RRES, but the code's `answers` does not match it (the orchestrator-mode
RRES row is `{RACK, RCAN}`). -/
theorem answers_table_counterexample :
    matched_orch
        ⟨DREQ, "abcdefghij", 1, 1, "", "", "", "", ""⟩
        ⟨RRES, "abcdefghij", 1, 1, "", "", "", "", ""⟩ = false ∧
    claimAnswerTable RRES DREQ = true ∧
    ("abcdefghij" : String) = "abcdefghij" := by
  refine ⟨?_, by decide, rfl⟩
  simp [matched_orch, answers_orch, hashret_orch, RRES, DREQ, HREQ, HRES,
    RREQ, RCAN, RACK, DRES, DWAIT, DCAN]

lemma string_append_inj {a b c d : String} (h : a ++ b = c ++ d)
    (hl : a.length = c.length) : a = c ∧ b = d := by
  have hd : a.data ++ b.data = c.data ++ d.data := by
    rw [← String.data_append, ← String.data_append, h]
  have hl' : a.data.length = c.data.length := hl
  have h2 := List.append_inj hd hl'
  exact ⟨String.ext h2.1, String.ext h2.2⟩

/-- The broadcast-mode allowed-reply table as amended:
`RRES → {DREQ, RCAN}` (no RACK row entry in BROADCAST mode). -/
def amendedTableB (qs ps : ℕ) : Bool :=
  (qs == HREQ && ps == HRES) ||
  (qs == RREQ && (ps == RRES || ps == RCAN)) ||
  (qs == RRES && (ps == DREQ || ps == RCAN)) ||
  (qs == DREQ && (ps == DRES || ps == DWAIT || ps == DCAN)) ||
  (qs == DRES && (ps == DACK || ps == DCAN))

/-- The orchestrator-mode allowed-reply table as amended:
`RRES → {RACK, RCAN}`. -/
def amendedTableO (qs ps : ℕ) : Bool :=
  (qs == HREQ && ps == HRES) ||
  (qs == RREQ && (ps == RRES || ps == RCAN)) ||
  (qs == RRES && (ps == RACK || ps == RCAN)) ||
  (qs == DREQ && (ps == DRES || ps == DWAIT || ps == DCAN)) ||
  (qs == DRES && (ps == DACK || ps == DCAN))

/-- C6 as amended: in broadcast mode P answers Q iff the req_ids are
equal and (Q.state, P.state) is in the table whose RRES row is
`{DREQ, RCAN}`; in orchestrator mode the match key is req_id together
with the decimal representation of attempt_no (for on-wire packets the
req_id field is a fixed 10 bytes, so equal-length req_ids), and the RRES
row is `{RACK, RCAN}`. -/
theorem answers_match_amended (p q : PktB) (p' q' : PktO)
    (hlen : p'.req_id.length = q'.req_id.length) :
    (matched_bcst p q = true ↔
      (p.req_id = q.req_id ∧ amendedTableB q.state p.state = true)) ∧
    (matched_orch p' q' = true ↔
      (p'.req_id = q'.req_id ∧
        toString p'.attempt_no = toString q'.attempt_no ∧
        amendedTableO q'.state p'.state = true)) := by
  constructor
  · simp only [matched_bcst, Bool.and_eq_true, beq_iff_eq]
    exact and_congr Iff.rfl Iff.rfl
  · simp only [matched_orch, Bool.and_eq_true, beq_iff_eq]
    constructor
    · rintro ⟨hk, ha⟩
      obtain ⟨h1, h2⟩ := string_append_inj hk hlen
      exact ⟨h1, h2, ha⟩
    · rintro ⟨h1, h2, ha⟩
      refine ⟨?_, ha⟩
      show p'.req_id ++ toString p'.attempt_no =
        q'.req_id ++ toString q'.attempt_no
      rw [h1, h2]

/-- Witness for C6 as amended, at concrete packets: an HRES answering an
HREQ in broadcast mode, and an RACK answering an RRES in orchestrator
mode. -/
theorem answers_match_amended_witness :
    (("abcdefghij" : String).length = ("abcdefghij" : String).length) ∧
    (matched_bcst ⟨HRES, "abcdefghij", 1, 1, "", 2, 512, 5⟩
        ⟨HREQ, "abcdefghij", 1, 1, "", 0, 0, 0⟩ = true ↔
      (("abcdefghij" : String) = "abcdefghij" ∧
        amendedTableB HREQ HRES = true)) ∧
    (matched_orch ⟨RACK, "abcdefghij", 1, 1, "", "", "", "", ""⟩
        ⟨RRES, "abcdefghij", 1, 1, "", "", "", "", ""⟩ = true ↔
      (("abcdefghij" : String) = "abcdefghij" ∧
        toString (1 : ℕ) = toString (1 : ℕ) ∧
        amendedTableO RRES RACK = true)) :=
  ⟨rfl,
    (answers_match_amended ⟨HRES, "abcdefghij", 1, 1, "", 2, 512, 5⟩
      ⟨HREQ, "abcdefghij", 1, 1, "", 0, 0, 0⟩
      ⟨RACK, "abcdefghij", 1, 1, "", "", "", "", ""⟩
      ⟨RRES, "abcdefghij", 1, 1, "", "", "", "", ""⟩ rfl).1,
    (answers_match_amended ⟨HRES, "abcdefghij", 1, 1, "", 2, 512, 5⟩
      ⟨HREQ, "abcdefghij", 1, 1, "", 0, 0, 0⟩
      ⟨RACK, "abcdefghij", 1, 1, "", "", "", "", ""⟩
      ⟨RRES, "abcdefghij", 1, 1, "", "", "", "", ""⟩ rfl).2⟩

/-! ### Claim C7: the inbound acceptance filter (`is_request`) -/

/-- The protocol layers a sniffed frame can contain. -/
inductive Layer
  | ether
  | ip
  | myProtocol
  | padding
deriving DecidableEq

/-- What `MyProtocolAM.is_request` reads from a sniffed frame: its layer
stack, the IP source address and the `MyProtocol.req_id` field. -/
structure InPkt where
  layers : List Layer
  ipSrc : String
  req_id : String
deriving DecidableEq

/-- `MyProtocolAM.is_request` (`protocol_bcst.py` lines 162-174,
`protocol_orch.py` lines 259-271 — identical up to `req_id` truthiness,
which is the same test on a bytes field): the frame must contain the
Ether, IP and MyProtocol layers and no other layer, must not come from
the node's own IP or `0.0.0.0`, and must carry a non-empty req_id. -/
def is_request (myIp : String) (p : InPkt) : Bool :=
  p.layers.contains .ether && p.layers.contains .ip &&
  p.layers.contains .myProtocol &&
  !(p.layers.any fun l =>
    l != Layer.ether && l != Layer.ip && l != Layer.myProtocol) &&
  (p.ipSrc != myIp) && (p.ipSrc != DEFAULT_IP) && (p.req_id != "")

/-- C7: every packet accepted by `is_request` consists of exactly the
Ether, IP and MyProtocol layers, has a source IP that is neither the
node's own IP nor `0.0.0.0`, and carries a non-empty req_id. -/
theorem is_request_accept_spec (myIp : String) (p : InPkt)
    (h : is_request myIp p = true) :
    p.req_id ≠ "" ∧ p.ipSrc ≠ myIp ∧ p.ipSrc ≠ "0.0.0.0" ∧
    Layer.ether ∈ p.layers ∧ Layer.ip ∈ p.layers ∧
    Layer.myProtocol ∈ p.layers ∧
    ∀ l ∈ p.layers,
      l = Layer.ether ∨ l = Layer.ip ∨ l = Layer.myProtocol := by
  simp only [is_request, DEFAULT_IP, Bool.and_eq_true, bne_iff_ne,
    ne_eq] at h
  obtain ⟨⟨⟨⟨⟨⟨h1, h2⟩, h3⟩, h4⟩, h5⟩, h6⟩, h7⟩ := h
  rw [Bool.not_eq_true', List.any_eq_false] at h4
  refine ⟨h7, h5, h6, List.mem_of_elem_eq_true h1,
    List.mem_of_elem_eq_true h2, List.mem_of_elem_eq_true h3,
    fun l hl => ?_⟩
  have hno := h4 l hl
  simp only [Bool.not_eq_true, Bool.and_eq_false_iff,
    bne_eq_false_iff_eq] at hno
  tauto

/-- Witness for C7: a well-formed HREQ frame from a peer is accepted, and
the theorem's conclusions hold for it. -/
theorem is_request_accept_spec_witness :
    is_request "10.0.0.1"
        ⟨[Layer.ether, Layer.ip, Layer.myProtocol], "10.0.0.2",
          "abcdefghij"⟩ = true ∧
    (("abcdefghij" : String) ≠ "" ∧ ("10.0.0.2" : String) ≠ "10.0.0.1" ∧
      ("10.0.0.2" : String) ≠ "0.0.0.0" ∧
      Layer.ether ∈ [Layer.ether, Layer.ip, Layer.myProtocol] ∧
      Layer.ip ∈ [Layer.ether, Layer.ip, Layer.myProtocol] ∧
      Layer.myProtocol ∈ [Layer.ether, Layer.ip, Layer.myProtocol] ∧
      ∀ l ∈ [Layer.ether, Layer.ip, Layer.myProtocol],
        l = Layer.ether ∨ l = Layer.ip ∨ l = Layer.myProtocol) :=
  ⟨by decide,
    is_request_accept_spec "10.0.0.1"
      ⟨[Layer.ether, Layer.ip, Layer.myProtocol], "10.0.0.2", "abcdefghij"⟩
      (by decide)⟩

/-! ### Provider-side DREQ handling (claim C5)

The provider's view of a request: `Request_` in
`src/client/protocol/settings.py` (BCST) and `_Request` in
`src/client/protocol/protocol_orch.py` (ORCH) extend `Request` with a
`_thread` handle and a `_freed` flag.  Only the fields the embedded
branches read or write are modelled. -/

/-- A provider-side request table entry. -/
structure PReq where
  state : ℕ
  cos : Req
  result : String
  freed : Bool
  hasThread : Bool
deriving DecidableEq

/-- Result of the provider's DREQ branch in BROADCAST mode: the reply
packet (if any), the updated table entry, the updated ledger and whether
a new executor thread was started. -/
structure DreqOutB where
  reply : Option PktB
  preq : PReq
  reserved : Reserved
  execStarted : Bool
deriving DecidableEq

/-- The `state == DREQ and _req` branch of `MyProtocolAM.make_reply` in
BROADCAST mode (`protocol_bcst.py`, lines 266-301), given the table entry
`pr` for `(ip_src, req_id)`:
already executed (DRES) re-sends the cached result; still executing
(RRES with a live thread) replies DWAIT; previously cancelled (HREQ)
re-checks and re-reserves or replies DCAN; state RRES starts the executor
thread. -/
def handleDreq_bcst (c : Config) (res : Reserved) (pkt : PktB) (pr : PReq) :
    DreqOutB :=
  if pr.state == DRES then
    ⟨some { pkt with state := DRES, data := pr.result }, pr, res, false⟩
  else if pr.state == RRES && pr.hasThread then
    ⟨some { pkt with state := DWAIT }, pr, res, false⟩
  else if pr.state == HREQ then
    if (check_resources c res pr.cos).1 then
      ⟨none,
        { pr with state := RRES, freed := false, hasThread := true },
        (reserve_resources c res pr.cos).2, true⟩
    else
      ⟨some { pkt with state := DCAN }, { pr with state := HREQ }, res,
        false⟩
  else if pr.state == RRES then
    ⟨none, { pr with hasThread := true }, res, true⟩
  else
    ⟨none, pr, res, false⟩

/-- Result of the provider's DREQ branch in ORCHESTRATOR mode; also
records whether the entry's data-exchange event was signalled. -/
structure DreqOutO where
  reply : Option PktO
  preq : PReq
  reserved : Reserved
  execStarted : Bool
  eventSignalled : Bool
deriving DecidableEq

/-- Python's `str.ljust`: pad on the right with spaces to the given
width. -/
def ljust (s : String) (n : ℕ) : String :=
  s ++ String.mk (List.replicate (n - s.length) ' ')

/-- The `state == DREQ and _req_id in _requests` branch of
`MyProtocolAM.make_reply` in ORCHESTRATOR mode (`protocol_orch.py`, lines
313-356).  `hasEvent` says whether `_events` holds an entry for this
request (it is signalled on entry); the still-executing test is
`state == DREQ and _thread != None`; the previously-cancelled state is
RCAN, and a successful revival moves the entry through RRES to DREQ as
the thread starts. -/
def handleDreq_orch (c : Config) (res : Reserved)
    (etherSrc etherDst ipSrc ipDst : String) (hasEvent : Bool)
    (pkt : PktO) (pr : PReq) : DreqOutO :=
  if pr.state == DRES then
    ⟨some { pkt with state := DRES, data := pr.result }, pr, res, false,
      hasEvent⟩
  else if pr.state == DREQ && pr.hasThread then
    ⟨some { pkt with state := DWAIT }, pr, res, false, hasEvent⟩
  else if pr.state == RCAN then
    if (check_resources c res pr.cos).1 then
      ⟨none,
        { pr with state := DREQ, freed := false, hasThread := true },
        (reserve_resources c res pr.cos).2, true, hasEvent⟩
    else
      ⟨some { pkt with
                state := DCAN, src_mac := etherSrc,
                src_ip := ljust ipSrc IP_LEN, host_mac := etherDst,
                host_ip := ljust ipDst IP_LEN },
        { pr with state := DCAN }, res, false, hasEvent⟩
  else if pr.state == RRES then
    ⟨none, { pr with state := DREQ, hasThread := true }, res, true,
      hasEvent⟩
  else
    ⟨none, pr, res, false, hasEvent⟩

/-- C5: a provider entry in state DRES that receives the same DREQ again
replies DRES carrying the cached result bytes, starts no new execution
and leaves both the table entry and the reserved triple unchanged — in
both broadcast and orchestrator modes. -/
theorem dreq_in_dres_idempotent (c : Config) (res : Reserved)
    (pkt : PktB) (pkt' : PktO) (etherSrc etherDst ipSrc ipDst : String)
    (hasEvent : Bool) (pr : PReq) (h : pr.state = DRES) :
    handleDreq_bcst c res pkt pr =
      ⟨some { pkt with state := DRES, data := pr.result }, pr, res,
        false⟩ ∧
    handleDreq_orch c res etherSrc etherDst ipSrc ipDst hasEvent pkt' pr =
      ⟨some { pkt' with state := DRES, data := pr.result }, pr, res,
        false, hasEvent⟩ := by
  constructor
  · unfold handleDreq_bcst
    rw [if_pos]
    rw [h]
    exact beq_self_eq_true _
  · unfold handleDreq_orch
    rw [if_pos]
    rw [h]
    exact beq_self_eq_true _

/-- Witness for C5 at a concrete provider entry holding result
`"result"`. -/
theorem dreq_in_dres_idempotent_witness :
    (PReq.state ⟨DRES, ⟨1, 512, 5⟩, "result", false, true⟩ = DRES) ∧
    (handleDreq_bcst ⟨true, 4, 2048, 20, 0, 0, 0, 0⟩ ⟨1, 512, 5⟩
        ⟨DREQ, "abcdefghij", 1, 1, "in", 0, 0, 0⟩
        ⟨DRES, ⟨1, 512, 5⟩, "result", false, true⟩ =
      ⟨some ⟨DRES, "abcdefghij", 1, 1, "result", 0, 0, 0⟩,
        ⟨DRES, ⟨1, 512, 5⟩, "result", false, true⟩, ⟨1, 512, 5⟩,
        false⟩ ∧
    handleDreq_orch ⟨true, 4, 2048, 20, 0, 0, 0, 0⟩ ⟨1, 512, 5⟩
        "aa:bb:cc:dd:ee:ff" "11:22:33:44:55:66" "10.0.0.2" "10.0.0.5"
        true ⟨DREQ, "abcdefghij", 1, 1, "in", "", "", "", ""⟩
        ⟨DRES, ⟨1, 512, 5⟩, "result", false, true⟩ =
      ⟨some ⟨DRES, "abcdefghij", 1, 1, "result", "", "", "", ""⟩,
        ⟨DRES, ⟨1, 512, 5⟩, "result", false, true⟩, ⟨1, 512, 5⟩,
        false, true⟩) :=
  ⟨rfl,
    dreq_in_dres_idempotent ⟨true, 4, 2048, 20, 0, 0, 0, 0⟩ ⟨1, 512, 5⟩
      ⟨DREQ, "abcdefghij", 1, 1, "in", 0, 0, 0⟩
      ⟨DREQ, "abcdefghij", 1, 1, "in", "", "", "", ""⟩
      "aa:bb:cc:dd:ee:ff" "11:22:33:44:55:66" "10.0.0.2" "10.0.0.5"
      true ⟨DRES, ⟨1, 512, 5⟩, "result", false, true⟩ rfl⟩

/-! ### Consumer-side DRES handling (claim C4)

`Request` in `src/client/model.py`: the consumer's record with `host`,
`state`, `result`, `dres_at`, the `_late` flag (False at construction)
and the attempts dict.  Only the attempt fields the embedded branches
touch (`state`, `dres_at`) are modelled. -/

/-- The two fields of an `Attempt` written by the late-DRES paths. -/
structure Att where
  state : ℕ
  dres_at : Option ℚ
deriving DecidableEq

/-- A consumer-side request record. -/
structure CReq where
  state : ℕ
  host : Option String
  result : String
  dres_at : Option ℚ
  late : Bool
  attempts : List (ℕ × Att)
deriving DecidableEq

/-- `my_req.attempts.get(att_no, None)`. -/
def lookupAtt (l : List (ℕ × Att)) (n : ℕ) : Option Att :=
  (l.find? fun p => p.1 == n).map Prod.snd

/-- `att.state = DRES; att.dres_at = dres_at` on the matching attempt
(no-op when the attempt number is absent). -/
def setAttDres (l : List (ℕ × Att)) (n : ℕ) (t : ℚ) : List (ℕ × Att) :=
  l.map fun p => if p.1 == n then (p.1, ⟨DRES, some t⟩) else p

/-- The `state == DRES and my_req` branch of `MyProtocolAM.make_reply` in
BROADCAST mode (`protocol_bcst.py`, lines 303-336), given the consumer's
record `r`, the receive timestamp `t` and the packet's source `ipSrc`.
If no DRES was accepted yet (`dres_at` null): accept — recording
`dres_at`, state DRES, the new host and the result, updating the attempt
if present, and replying DACK — only when the source differs from
`req.host` AND the request is flagged late; otherwise no reply and no
change.  If a DRES was already accepted: DACK to the same host, DCAN to
any other. -/
def handleDres_bcst (t : ℚ) (ipSrc : String) (pkt : PktB) (r : CReq) :
    Option PktB × CReq :=
  match r.dres_at with
  | none =>
    if (some ipSrc != r.host) && r.late then
      (some { pkt with state := DACK },
        { r with dres_at := some t, state := DRES, host := some ipSrc,
                 result := pkt.data,
                 attempts := setAttDres r.attempts pkt.attempt_no t })
    else
      (none, r)
  | some _ =>
    if some ipSrc != r.host then
      (some { pkt with state := DCAN }, r)
    else
      (some { pkt with state := DACK }, r)

/-- The `state == DRES and req_id in requests` branch of
`MyProtocolAM.make_reply` in ORCHESTRATOR mode (`protocol_orch.py`,
lines 358-396).  If no DRES was accepted yet the packet is accepted
unconditionally (no source or late-flag test); the attempt update
`requests[req_id].attempts[attempt_no]` is a plain dict subscript, so a
missing attempt raises KeyError after the record fields were already
written — modelled by the final `Bool` (exception raised) with the reply
dropped.  Replies go to the orchestrator carrying the provider's MAC in
`host_mac` and its (left-justified) IP in `host_ip`. -/
def handleDres_orch (t : ℚ) (etherSrc ipSrc : String) (hasEvent : Bool)
    (pkt : PktO) (r : CReq) : Option PktO × CReq × Bool × Bool :=
  match r.dres_at with
  | none =>
    match lookupAtt r.attempts pkt.attempt_no with
    | none =>
      (none,
        { r with dres_at := some t, state := DRES, host := some ipSrc,
                 result := pkt.data },
        false, true)
    | some _ =>
      (some { pkt with
                state := DACK, host_mac := etherSrc,
                host_ip := ljust ipSrc IP_LEN },
        { r with dres_at := some t, state := DRES, host := some ipSrc,
                 result := pkt.data,
                 attempts := setAttDres r.attempts pkt.attempt_no t },
        hasEvent, false)
  | some _ =>
    if some ipSrc != r.host then
      (some { pkt with
                state := DCAN, host_mac := etherSrc,
                host_ip := ljust ipSrc IP_LEN },
        r, false, false)
    else
      (some { pkt with
                state := DACK, host_mac := etherSrc,
                host_ip := ljust ipSrc IP_LEN },
        r, false, false)

/-- C4, counterexample: broadcast mode, no DRES accepted yet
(`dres_at = null`), source `10.0.0.3` differs from the current host
`10.0.0.2`, but the request's `_late` flag is false — the claim says this
DRES is accepted and answered with DACK, while the code sends no reply
and changes nothing. -/
theorem late_dres_counterexample :
    (CReq.dres_at ⟨DREQ, some "10.0.0.2", "", none, false, []⟩ = none ∧
      CReq.host ⟨DREQ, some "10.0.0.2", "", none, false, []⟩ ≠
        some "10.0.0.3") ∧
    handleDres_bcst 5 "10.0.0.3"
        ⟨DRES, "abcdefghij", 1, 1, "res", 0, 0, 0⟩
        ⟨DREQ, some "10.0.0.2", "", none, false, []⟩ =
      (none, ⟨DREQ, some "10.0.0.2", "", none, false, []⟩) := by
  refine ⟨⟨rfl, by decide⟩, ?_⟩
  rfl

/-- C4 as amended: when no DRES has been accepted yet, the broadcast-mode
responder accepts (state DRES, recording `dres_at`, host and result) and
replies DACK exactly when the source differs from the current host and
the request's `late` flag is set; the orchestrator-mode responder accepts
any such DRES regardless of source (given the packet's attempt exists in
the record).  When a DRES has already been accepted, both modes reply
DACK to the same host and DCAN to any other host. -/
theorem late_dres_amended (t s : ℚ) (ip1 ip2 ip3 ip4 e2 e4 : String)
    (hasEv : Bool) (pkt1 pkt3 : PktB) (pkt2 pkt4 : PktO)
    (r1 r2 r3 r4 : CReq) (a : Att)
    (h1a : r1.dres_at = none) (h1b : r1.host ≠ some ip1)
    (h1c : r1.late = true)
    (h2a : r2.dres_at = none)
    (h2b : lookupAtt r2.attempts pkt2.attempt_no = some a)
    (h3 : r3.dres_at = some s) (h4 : r4.dres_at = some s) :
    handleDres_bcst t ip1 pkt1 r1 =
      (some { pkt1 with state := DACK },
        { r1 with dres_at := some t, state := DRES, host := some ip1,
                  result := pkt1.data,
                  attempts := setAttDres r1.attempts pkt1.attempt_no t }) ∧
    handleDres_orch t e2 ip2 hasEv pkt2 r2 =
      (some { pkt2 with
                state := DACK, host_mac := e2,
                host_ip := ljust ip2 IP_LEN },
        { r2 with dres_at := some t, state := DRES, host := some ip2,
                  result := pkt2.data,
                  attempts := setAttDres r2.attempts pkt2.attempt_no t },
        hasEv, false) ∧
    handleDres_bcst t ip3 pkt3 r3 =
      (if r3.host = some ip3 then some { pkt3 with state := DACK }
        else some { pkt3 with state := DCAN }, r3) ∧
    handleDres_orch t e4 ip4 hasEv pkt4 r4 =
      (if r4.host = some ip4 then
          some { pkt4 with
                   state := DACK, host_mac := e4,
                   host_ip := ljust ip4 IP_LEN }
        else
          some { pkt4 with
                   state := DCAN, host_mac := e4,
                   host_ip := ljust ip4 IP_LEN },
        r4, false, false) := by
  refine ⟨?_, ?_, ?_, ?_⟩
  · unfold handleDres_bcst
    rw [h1a]
    rw [if_pos]
    rw [Bool.and_eq_true, h1c]
    refine ⟨?_, rfl⟩
    rw [bne_iff_ne]
    exact fun he => h1b he.symm
  · unfold handleDres_orch
    rw [h2a, h2b]
  · unfold handleDres_bcst
    rw [h3]
    by_cases hh : r3.host = some ip3
    · simp [hh]
    · have hne : (some ip3 != r3.host) = true := by
        rw [bne_iff_ne]
        exact fun he => hh he.symm
      simp [hh, hne]
  · unfold handleDres_orch
    rw [h4]
    by_cases hh : r4.host = some ip4
    · simp [hh]
    · have hne : (some ip4 != r4.host) = true := by
        rw [bne_iff_ne]
        exact fun he => hh he.symm
      simp [hh, hne]

/-- Witness for C4 as amended, at concrete records: a late acceptance in
broadcast mode, a first acceptance in orchestrator mode, and the
duplicate-DRES replies in both modes. -/
theorem late_dres_amended_witness :
    (CReq.dres_at ⟨DREQ, some "10.0.0.2", "", none, true, []⟩ = none ∧
      CReq.host ⟨DREQ, some "10.0.0.2", "", none, true, []⟩ ≠
        some "10.0.0.3" ∧
      CReq.late ⟨DREQ, some "10.0.0.2", "", none, true, []⟩ = true ∧
      CReq.dres_at ⟨DREQ, none, "", none, false, [(1, ⟨DREQ, none⟩)]⟩ =
        none ∧
      lookupAtt [(1, ⟨DREQ, none⟩)] 1 = some ⟨DREQ, none⟩ ∧
      CReq.dres_at ⟨DRES, some "10.0.0.2", "r", some 3, true, []⟩ =
        some 3) ∧
    handleDres_bcst 5 "10.0.0.3"
        ⟨DRES, "abcdefghij", 1, 1, "res", 0, 0, 0⟩
        ⟨DREQ, some "10.0.0.2", "", none, true, []⟩ =
      (some ⟨DACK, "abcdefghij", 1, 1, "res", 0, 0, 0⟩,
        ⟨DRES, some "10.0.0.3", "res", some 5, true, []⟩) ∧
    handleDres_bcst 5 "10.0.0.4"
        ⟨DRES, "abcdefghij", 1, 1, "res", 0, 0, 0⟩
        ⟨DRES, some "10.0.0.2", "r", some 3, true, []⟩ =
      (some ⟨DCAN, "abcdefghij", 1, 1, "res", 0, 0, 0⟩,
        ⟨DRES, some "10.0.0.2", "r", some 3, true, []⟩) := by
  refine ⟨⟨rfl, by decide, rfl, rfl, by decide, rfl⟩, ?_, ?_⟩
  · have h := late_dres_amended 5 3 "10.0.0.3" "10.0.0.3" "10.0.0.4"
      "10.0.0.4" "e" "e" true
      ⟨DRES, "abcdefghij", 1, 1, "res", 0, 0, 0⟩
      ⟨DRES, "abcdefghij", 1, 1, "res", 0, 0, 0⟩
      ⟨DRES, "abcdefghij", 1, 1, "res", "", "", "", ""⟩
      ⟨DRES, "abcdefghij", 1, 1, "res", "", "", "", ""⟩
      ⟨DREQ, some "10.0.0.2", "", none, true, []⟩
      ⟨DREQ, none, "", none, false, [(1, ⟨DREQ, none⟩)]⟩
      ⟨DRES, some "10.0.0.2", "r", some 3, true, []⟩
      ⟨DRES, some "10.0.0.2", "r", some 3, true, []⟩
      ⟨DREQ, none⟩ rfl (by decide) rfl rfl (by decide) rfl rfl
    exact h.1
  · have h := late_dres_amended 5 3 "10.0.0.3" "10.0.0.3" "10.0.0.4"
      "10.0.0.4" "e" "e" true
      ⟨DRES, "abcdefghij", 1, 1, "res", 0, 0, 0⟩
      ⟨DRES, "abcdefghij", 1, 1, "res", 0, 0, 0⟩
      ⟨DRES, "abcdefghij", 1, 1, "res", "", "", "", ""⟩
      ⟨DRES, "abcdefghij", 1, 1, "res", "", "", "", ""⟩
      ⟨DREQ, some "10.0.0.2", "", none, true, []⟩
      ⟨DREQ, none, "", none, false, [(1, ⟨DREQ, none⟩)]⟩
      ⟨DRES, some "10.0.0.2", "r", some 3, true, []⟩
      ⟨DRES, some "10.0.0.2", "r", some 3, true, []⟩
      ⟨DREQ, none⟩ rfl (by decide) rfl rfl (by decide) rfl rfl
    have h3 := h.2.2.1
    rw [if_neg (by decide)] at h3
    exact h3

/-! ### Claim C8: the consumer's late-RRES branch in BROADCAST mode

`protocol_bcst.py`, lines 255-263:

    if state == RRES and my_req and ip_src != req.host:
        ...
        my_proto.state = RCAN
        return IP(dst=ip_src) / my_proto

Here `req` is the sniffed packet (`make_reply`'s parameter), not the
consumer's record `my_req`.  Scapy resolves an attribute on a packet by
searching every layer's fields and raises `AttributeError` when none
declares it.  The frame accepted by `is_request` consists of exactly
Ether, IP and MyProtocol, and none of those layers has a field named
`host`, so evaluating `req.host` raises instead of comparing with the
request's recorded host. -/

/-- Field names of the Ether layer. -/
def etherFieldNames : List String := ["dst", "src", "type"]

/-- Field names of the IP layer. -/
def ipFieldNames : List String :=
  ["version", "ihl", "tos", "len", "id", "flags", "frag", "ttl", "proto",
    "chksum", "src", "dst", "options"]

/-- Field names of `MyProtocol` in BROADCAST mode (its `fields_desc`). -/
def myProtocolFieldNamesB : List String :=
  ["state", "req_id", "attempt_no", "cos_id", "data", "cpu_offer",
    "ram_offer", "disk_offer"]

/-- All field names an accepted inbound frame offers to scapy attribute
lookup: the three layers' fields. -/
def inboundFieldNames : List String :=
  etherFieldNames ++ ipFieldNames ++ myProtocolFieldNamesB

/-- The `state == RRES and my_req and ip_src != req.host` branch of
`MyProtocolAM.make_reply` in BROADCAST mode (`protocol_bcst.py`, lines
255-263).  `hasMyReq` is the truthiness of `requests.get(req_id)`.  When
the guard reaches `req.host`, scapy attribute lookup succeeds only if
some layer declares a `host` field; otherwise the expression raises
`AttributeError` and no reply is built.  (The success branch would
compare `ip_src` with the field's value and reply RCAN on a mismatch; it
is unreachable because no layer of the accepted frame has that field.) -/
def handleRres_bcst (hasMyReq : Bool) (pktState : ℕ) :
    Except String (Option ℕ) :=
  if pktState == RRES && hasMyReq then
    if inboundFieldNames.contains "host" then
      Except.ok (some RCAN)
    else
      Except.error "AttributeError"
  else
    Except.ok none

/-- C8: the claim (reply RCAN to a late RRES from a previous host) is
what the spec and the code's own comments intend, but the code compares
`ip_src` against `req.host` on the received packet, which has no `host`
field in any of its layers; the branch raises `AttributeError` and never
sends the RCAN.  Evaluated at the failing input: an inbound RRES for a
request this consumer owns. -/
theorem late_rres_attribute_error :
    handleRres_bcst true RRES = Except.error "AttributeError" ∧
    inboundFieldNames.contains "host" = false := by
  constructor
  · rfl
  · rfl

end Fog
